import Mathlib

set_option maxHeartbeats 1000000
set_option maxRecDepth 2000

namespace KurobbsModel

/-- The remote endpoints `KurobbsClient` posts to, one constructor per URL; the
like endpoint (`LIKE_URL`) is split by its `operateType` argument: 1 = like,
2 = unlike. -/
inductive ApiCall where
  | findRoleList
  | signV2
  | userSign
  | forumList
  | postDetail
  | shareTask
  | like
  | unlike
  deriving DecidableEq, BEq, Repr

/-- The shapes of the `data` field of a decoded reply that the client code
actually inspects: the role list (each entry read through
`[0].get("gameId", 2)`, hence an optional per-role game id), the forum
listing (only the length of `data["postList"]` matters: it is subscripted by
the loop index), the post-detail payload (subscripted for ids that only fill
request bodies), and any other well-formed payload. -/
inductive RData where
  | roles (gameIds : List (Option Int))
  | posts (postCount : Nat)
  | detail
  | plain
  deriving DecidableEq, Repr

/-- The typed result envelope every remote reply is decoded into — `Response`
in `auto_checkin.py`, fields `code`, `msg`, `success` (Optional), `data`
(Optional). -/
structure Resp where
  code : Int
  msg : String
  success : Option Bool
  data : Option RData
  deriving DecidableEq, Repr

/-- Errors that can escape a piece of the client:
`transport` — `requests.post` failed or `Response.model_validate_json` could
not parse the body (raised inside `make_request`, caught nowhere below
`main`); `pyError` — an `IndexError`/`KeyError`/`TypeError`/`NameError` from
subscripting response data (e.g. `data["postList"][i]` on an empty listing);
`kurobbs` — the `KurobbsClientException` raised by `_log` at the end of
`start`. -/
inductive Err where
  | transport (msg : String)
  | pyError
  | kurobbs (msg : String)
  deriving DecidableEq, Repr

/-- The mutable state of one `KurobbsClient` run: the `result` dict
(insertion-ordered mapping stage name to success message), the `exceptions`
list (the `str` of each appended `KurobbsClientException`), plus two pure
observers of the run: the list of remote calls attempted so far and the
number of `time.sleep(random.uniform(1.0, 2.0))` jitter sleeps performed. -/
structure St where
  result : List (String × String)
  exceptions : List String
  trace : List ApiCall
  sleeps : Nat
  deriving DecidableEq, Repr

/-- The state of a freshly constructed client (`result = {}`,
`exceptions = []`, no calls made, no sleeps). -/
def initSt : St := ⟨[], [], [], 0⟩

/-- The effect shape of the embedding: client state threaded through a
computation that can raise. Kept as a plain function type with a thin
`Monad` instance so that closed runs reduce cheaply. -/
def Step (α : Type) : Type := St → Except Err (α × St)

/-- Return a value, leaving the state untouched. -/
def pureS {α : Type} (a : α) : Step α := fun s => .ok (a, s)

/-- Sequence two steps; an error in the first aborts the second. -/
def bindS {α β : Type} (x : Step α) (f : α → Step β) : Step β := fun s =>
  match x s with
  | .ok (a, s') => f a s'
  | .error e => .error e

instance : Monad Step where
  pure := pureS
  bind := bindS

/-- Raise a Python exception that no surrounding client code catches. -/
def throwS {α : Type} (e : Err) : Step α := fun _ => .error e

/-- Read the current client state. -/
def getS : Step St := fun s => .ok (s, s)

/-- Apply a pure update to the client state. -/
def modS (f : St → St) : Step Unit := fun s => .ok ((), f s)

/-- A deterministic stand-in for the network: given the calls attempted so
far and the endpoint being posted to, either the decoded envelope or a
transport-error message. -/
abbrev Gw : Type := List ApiCall → ApiCall → Except String Resp

/-- Python dict assignment `d[k] = v`: update the entry in place when the key
exists (keeping its position), otherwise append a new entry. -/
def dictInsert (k v : String) : List (String × String) → List (String × String)
  | [] => [(k, v)]
  | (k', v') :: rest => if k' = k then (k, v) :: rest else (k', v') :: dictInsert k v rest

/-- `self.result[name] = message`. -/
def addRes (k v : String) (st : St) : St := { st with result := dictInsert k v st.result }

/-- `self.exceptions.append(KurobbsClientException(text))`; only the `str` of
the exception is ever consumed. -/
def addExc (e : String) (st : St) : St := { st with exceptions := st.exceptions ++ [e] }

/-- `time.sleep(random.uniform(1.0, 2.0))`: the drawn duration always lies in
the jitter range; only the fact that one sleep happened is observable in the
model. -/
def sleep : Step Unit := modS fun st => { st with sleeps := st.sleeps + 1 }

/-- Truthiness of the `Optional[bool]` field `success` (`None` and `False`
are both falsy in `if resp.success:`). -/
def rspOk (r : Resp) : Bool := r.success.getD false

/-- `KurobbsClient.make_request`: post to the endpoint and decode the reply;
an unreachable endpoint or unparsable body raises (transport), which no
caller below `main` catches. -/
def make_request (gw : Gw) (c : ApiCall) : Step Resp := do
  let st ← getS
  modS fun s => { s with trace := s.trace ++ [c] }
  match gw st.trace c with
  | .ok r => pureS r
  | .error m => throwS (Err.transport m)

/-- `KurobbsClient.get_user_game_list`: returns `res.data` without looking at
`success`. -/
def get_user_game_list (gw : Gw) : Step (Option RData) := do
  let res ← make_request gw .findRoleList
  pureS res.data

/-- The access `user_game_list[0].get("gameId", 2)`: raises when `data` was
`None`, not a list, or empty (TypeError / IndexError), otherwise yields the
first role's game id with default 2. -/
def firstGameId (d : Option RData) : Step Int :=
  match d with
  | some (.roles (g :: _)) => pureS (g.getD 2)
  | _ => throwS Err.pyError

/-- `KurobbsClient.get_forum_list`: look up the role list, derive the forum
id from the first role's game id (a request parameter only), then fetch the
listing. -/
def get_forum_list (gw : Gw) : Step Resp := do
  let ugl ← get_user_game_list gw
  let gameId ← firstGameId ugl
  let _forumId : Int := if gameId = 2 then 2 else 9
  make_request gw .forumList

/-- `KurobbsClient.get_post_detail`: builds the request from
`rsp_forumList.data["postList"][post_index]["postId"]` — this subscript
raises (pyError) when the data shape is wrong or the index is out of range —
then posts to the detail endpoint. -/
def get_post_detail (gw : Gw) (rspForumList : Resp) (postIndex : Nat) : Step Resp :=
  match rspForumList.data with
  | some (.posts n) =>
    if postIndex < n then make_request gw .postDetail else throwS Err.pyError
  | _ => throwS Err.pyError

/-- `KurobbsClient.like_post`: reads several ids out of
`rsp_PostDetail.data` (raising on a malformed payload) and posts to the like
endpoint with the given `operateType`. -/
def like_post (gw : Gw) (rspPostDetail : Resp) (operateType : Nat) : Step Resp :=
  match rspPostDetail.data with
  | some .detail => make_request gw (if operateType = 1 then .like else .unlike)
  | _ => throwS Err.pyError

/-- `KurobbsClient.share_post`: reads `data["gameId"]` (raising on a
malformed payload) and posts to the share-task endpoint. -/
def share_post (gw : Gw) (rspPostDetail : Resp) : Step Resp :=
  match rspPostDetail.data with
  | some .detail => make_request gw .shareTask
  | _ => throwS Err.pyError

/-- Outcome of one bounded-retry loop: the final value of the loop-body
response binding (`none` only when the body never ran), whether the loop left
through `break` (success threshold reached), the final success counter, and
how many times the body ran. -/
structure RetryResult where
  last : Option Resp
  reached : Bool
  successes : Nat
  attempts : Nat
  deriving DecidableEq, Repr

/-- The shared shape of the two plain `for … else` retry loops in
`forum_task`:
`for i in range(0, N): rsp = action(i); if rsp.success: success += 1;`
`sleep(uniform(1.0, 2.0)); if success >= K: break`.
Arguments: threshold `K`, the loop index `i`, attempts remaining, the running
success counter, and the current value of the body's response binding. The
`attempts` field of the returned record counts the iterations executed from
this point on (pure bookkeeping, not program state). -/
def retryLoopAux (K : Nat) (action : Nat → Step Resp) :
    Nat → Nat → Nat → Option Resp → Step RetryResult
  | _, 0, succ, last => pureS ⟨last, false, succ, 0⟩
  | i, r + 1, succ, _last => do
    let rsp ← action i
    let succ' := if rspOk rsp then succ + 1 else succ
    sleep
    if K ≤ succ' then
      pureS ⟨some rsp, true, succ', 1⟩
    else do
      let res ← retryLoopAux K action (i + 1) r succ' (some rsp)
      pureS { res with attempts := res.attempts + 1 }

/-- A full retry loop `for i in range(0, N)` with threshold `K`, started with
`success = 0` and the response binding not yet assigned. -/
def retryLoop (K N : Nat) (action : Nat → Step Resp) : Step RetryResult :=
  retryLoopAux K action 0 N 0 none

/-- Outcome of the like/unlike loop: the final value of the `rsp_like_post`
binding, the success counter, whether the loop left through `break`, and the
number of iterations executed. -/
structure LikeResult where
  lastLike : Resp
  successes : Nat
  reached : Bool
  attempts : Nat
  deriving DecidableEq, Repr

/-- The like/unlike loop of `forum_task`:
`for _ in range(0, 9):`
`  if like_post: rsp_like_post = self.like_post(d, 1)`
`  if rsp_like_post.success:`
`    sleep; like_post = False; rsp_dislike_post = self.like_post(d, 2)`
`    if rsp_dislike_post.success: success += 1; like_post = True`
`  sleep`
`  if success >= 5: break`.
Note that when `like_post` is `False` the stale `rsp_like_post` binding is
re-tested, so after one successful like every later iteration retries the
unlike call. The `attempts` field counts iterations executed from this point
on (pure bookkeeping). -/
def likeLoopAux (gw : Gw) (rspDetail : Resp) :
    Bool → Resp → Nat → Nat → Step LikeResult
  | _, lastLike, succ, 0 => pureS ⟨lastLike, succ, false, 0⟩
  | likePost, lastLike, succ, r + 1 => do
    let rspLike ← if likePost then like_post gw rspDetail 1 else pureS lastLike
    let next ←
      if rspOk rspLike then do
        sleep
        let rspDislike ← like_post gw rspDetail 2
        if rspOk rspDislike then pureS (true, succ + 1) else pureS (false, succ)
      else
        pureS (likePost, succ)
    sleep
    if 5 ≤ next.2 then
      pureS ⟨rspLike, next.2, true, 1⟩
    else do
      let res ← likeLoopAux gw rspDetail next.1 rspLike next.2 r
      pureS { res with attempts := res.attempts + 1 }

/-- A response value standing for the unassigned `rsp_like_post` binding; the
first iteration always issues a like, so it is never read. -/
def dummyResp : Resp := ⟨0, "", none, none⟩

/-- The like/unlike loop as entered by `forum_task`: `like_post = True`,
`success = 0`, budget 9 iterations, threshold 5. -/
def likeLoop (gw : Gw) (rspDetail : Resp) : Step LikeResult :=
  likeLoopAux gw rspDetail true dummyResp 0 9

/-- Reading the loop-body response binding after the loop: `none` means the
body never ran, so the name was never assigned and reading it is a
`NameError` (pyError). Never hit with the budgets used (5, 1, 9). -/
def lastRespS : Option Resp → Step Resp
  | none => throwS Err.pyError
  | some r => pureS r

/-- `KurobbsClient.forum_task`: fetch the listing (decisive failure recorded
and the whole task abandoned if its envelope is falsy), then the
detail-fetch retry loop (3 of 5), the share loop (1 of 1), and the
like/unlike loop (5 of 9); each loop's exhaustion records one failure entry
and abandons the rest of the task. -/
def forum_task (gw : Gw) : Step Unit := do
  let rspForumList ← get_forum_list gw
  if !rspOk rspForumList then
    modS (addExc ("获取帖子列表失败" ++ ", " ++ rspForumList.msg))
  else do
    modS (addRes "get_forum_list" "获取帖子列表成功")
    let r1 ← retryLoop 3 5 (fun i => get_post_detail gw rspForumList i)
    let rspGetPostDetail ← lastRespS r1.last
    if !r1.reached then
      modS (addExc ("获取帖子详情失败" ++ ", " ++ rspGetPostDetail.msg))
    else do
      modS (addRes "get_post_detail" "获取帖子详情成功")
      let r2 ← retryLoop 1 1 (fun _ => share_post gw rspGetPostDetail)
      let rspSharePost ← lastRespS r2.last
      if !r2.reached then
        modS (addExc ("分享帖子失败" ++ ", " ++ rspSharePost.msg))
      else do
        modS (addRes "share_post" "分享帖子成功")
        let lr ← likeLoop gw rspGetPostDetail
        if !lr.reached then
          modS (addExc ("点赞帖子失败" ++ ", " ++ lr.lastLike.msg))
        else
          modS (addRes "rsp_like_post" "点赞帖子成功")

/-- `KurobbsClient.checkin`: look up the role list, read
`user_game_list[0]` (raising on absent/empty data), then post the monthly
check-in; the month and the ids only fill the request body. -/
def checkin (gw : Gw) : Step Resp := do
  let ugl ← get_user_game_list gw
  let _gameId ← firstGameId ugl
  make_request gw .signV2

/-- `KurobbsClient.sign_in`: the community sign-in post. -/
def sign_in (gw : Gw) : Step Resp := make_request gw .userSign

/-- `KurobbsClient._process_sign_action`: run the action; a truthy envelope
records the success message under the action name, a falsy one appends
`f"{failure_message}, {resp.msg}"` to the exception list. -/
def processSignAction (actionName : String) (actionMethod : Step Resp)
    (successMessage failureMessage : String) : Step Unit := do
  let resp ← actionMethod
  if rspOk resp then
    modS (addRes actionName successMessage)
  else
    modS (addExc (failureMessage ++ ", " ++ resp.msg))

/-- `KurobbsClient.msg`: the success messages in insertion order joined with
`", "`, with `"!"` appended. -/
def msgOf (st : St) : String := String.intercalate ", " (st.result.map Prod.snd) ++ "!"

/-- `KurobbsClient._log`: log the summary (no state effect), then raise a
single `KurobbsClientException` joining all recorded failure texts with
`"; "` — if and only if the failure list is non-empty. -/
def logAndRaise : Step Unit := do
  let st ← getS
  if st.exceptions = [] then
    pureS ()
  else
    throwS (Err.kurobbs (String.intercalate "; " st.exceptions))

/-- The check-in stage as invoked by `start`. -/
def checkinStage (gw : Gw) : Step Unit :=
  processSignAction "checkin" (checkin gw) "签到奖励签到成功" "签到奖励签到失败"

/-- The community sign-in stage as invoked by `start`. -/
def signinStage (gw : Gw) : Step Unit :=
  processSignAction "sign_in" (sign_in gw) "社区签到成功" "社区签到失败"

/-- The three top-level stages of `KurobbsClient.start`, in source order,
without the final `_log`. -/
def stages (gw : Gw) : Step Unit := do
  checkinStage gw
  signinStage gw
  forum_task gw

/-- `KurobbsClient.start`: the three stages followed by `_log`. -/
def start (gw : Gw) : Step Unit := do
  stages gw
  logAndRaise

/-! ### Scenario gateways used by the theorems -/

/-- An everything-succeeds gateway: each endpoint replies with a truthy
envelope and the payload shape the client expects. -/
def gwAllOk : Gw := fun _ c =>
  .ok (match c with
    | .findRoleList => ⟨0, "角色", some true, some (.roles [some 2])⟩
    | .signV2 => ⟨0, "签到OK", some true, none⟩
    | .userSign => ⟨0, "社区OK", some true, none⟩
    | .forumList => ⟨0, "列表OK", some true, some (.posts 20)⟩
    | .postDetail => ⟨0, "详情OK", some true, some .detail⟩
    | .shareTask => ⟨0, "分享OK", some true, none⟩
    | .like => ⟨0, "点赞OK", some true, none⟩
    | .unlike => ⟨0, "取消OK", some true, none⟩)

/-- Like `gwAllOk` but one chosen endpoint instead replies with a falsy
envelope carrying message `m` (a decisive business failure of that call). -/
def gwFailOn (bad : ApiCall) (m : String) : Gw := fun tr c =>
  if c = bad then .ok ⟨0, m, some false, none⟩ else gwAllOk tr c

/-- Every call fails at the transport level with message `m`. -/
def gwDown (m : String) : Gw := fun _ _ => .error m

/-- Like `gwAllOk` but the community sign-in call fails at the transport
level with message `m`. -/
def gwDownOnUserSign (m : String) : Gw := fun tr c =>
  if c = .userSign then .error m else gwAllOk tr c

/-- Like `gwAllOk` but the forum listing is truthy and empty
(`data["postList"] == []`). -/
def gwEmptyPosts : Gw := fun tr c =>
  if c = .forumList then .ok ⟨0, "列表OK", some true, some (.posts 0)⟩ else gwAllOk tr c

/-- A detail response of the expected payload shape, handed to the share and
like/unlike sub-steps by the theorems that drive those loops directly. -/
def detailResp : Resp := ⟨0, "详情OK", some true, some .detail⟩

/-- Like `gwAllOk` but the unlike call succeeds exactly when the number of
unlike calls already made is even — i.e. the first, third, fifth, … unlike
calls succeed. -/
def gwAltUnlikeFirstOk : Gw := fun tr c =>
  if c = .unlike then
    .ok ⟨0, "取消交替", some (tr.count ApiCall.unlike % 2 = 0), none⟩
  else gwAllOk tr c

/-- Like `gwAllOk` but the unlike call succeeds exactly when the number of
unlike calls already made is odd — i.e. the first unlike call fails, the
second succeeds, and so on. -/
def gwAltUnlikeFirstFails : Gw := fun tr c =>
  if c = .unlike then
    .ok ⟨0, "取消交替", some (tr.count ApiCall.unlike % 2 = 1), none⟩
  else gwAllOk tr c

/-- A pure retry-loop action: attempt `i` yields a completed call whose
`success` is `f i` and whose message is `msgs i`; no state is touched. -/
def pureAct (f : Nat → Bool) (msgs : Nat → String) : Nat → Step Resp :=
  fun i => pureS ⟨0, msgs i, some (f i), none⟩

/-- The always-succeeding pure action with constant message. -/
def alwaysOkAct : Nat → Step Resp := pureAct (fun _ => true) (fun _ => "行")

/-- What `main()` observably does after configuration: the notifications
sent (in order) and the process exit code. -/
structure MainResult where
  notifications : List String
  exitCode : Nat
  deriving DecidableEq, Repr

/-- `main()`: construct a fresh client and run `start`. A normal return
sends `kurobbs.msg` when it is non-empty and exits 0; a
`KurobbsClientException` sends its text and exits 1; any other exception is
logged only — no notification — and exits 1. -/
def pymain (gw : Gw) : MainResult :=
  match start gw initSt with
  | .ok (_, st) => if msgOf st ≠ "" then ⟨[msgOf st], 0⟩ else ⟨[], 0⟩
  | .error (.kurobbs e) => ⟨[e], 1⟩
  | .error (.transport _) => ⟨[], 1⟩
  | .error .pyError => ⟨[], 1⟩

/-! ### Derived definitions used by the verification -/

/-- A step is tame when it never raises a `KurobbsClientException` itself and,
whenever it returns normally, the exception list of the final state is the
initial one with zero or more entries appended (never rewritten). Every piece
of the client below `_log` is tame. -/
def Tame {α : Type} (x : Step α) : Prop :=
  ∀ s : St, (∀ e, x s ≠ Except.error (Err.kurobbs e)) ∧
    (∀ a s', x s = .ok (a, s') → ∃ t, s'.exceptions = s.exceptions ++ t)

/-- How many of the attempt indices `i, i+1, …, i+t-1` the success sequence
`f` marks as successful. -/
def winCount (f : Nat → Bool) (i t : Nat) : Nat :=
  (List.range t).countP fun j => f (i + j)

/-- `n` consecutive runs of `KurobbsClient.start` against the same client
object (state carried over between runs, as when `start` is called again on
one instance). -/
def iterStart (gw : Gw) : Nat → Step Unit
  | 0 => pureS ()
  | n + 1 => do
    start gw
    iterStart gw n

/-- The sleep schedule asserted by the spec for a retry-loop run: a sleep
after every attempt except the attempt on which the success threshold was
reached (so, on a run that reached the threshold, `attempts - 1` sleeps when
started from a fresh state). Evaluated on the outcome of a loop run started
from `initSt`. -/
def sleepsExceptLastClaim : Except Err (RetryResult × St) → Bool
  | .ok (res, s') => s'.sleeps == res.attempts - 1
  | .error _ => true

/-- The outcome shape asserted by the spec for the like/unlike loop under the
alternating-unlike simulation: either 5 successes in exactly 10 attempts, or
exhaustion reported at 9 attempts. -/
def c7ClaimShape : Except Err (LikeResult × St) → Bool
  | .ok (res, _) => (res.successes == 5 && res.attempts == 10)
      || (res.reached == false && res.attempts == 9)
  | .error _ => true

/-- The call trace of one fully successful run of the three stages. -/
def fullTrace : List ApiCall :=
  [.findRoleList, .signV2, .userSign, .findRoleList, .forumList, .postDetail,
   .postDetail, .postDetail, .shareTask, .like, .unlike, .like, .unlike, .like,
   .unlike, .like, .unlike, .like, .unlike]

/-- The result mapping of one fully successful run, in execution order. -/
def okResults : List (String × String) :=
  [("checkin", "签到奖励签到成功"), ("sign_in", "社区签到成功"),
   ("get_forum_list", "获取帖子列表成功"), ("get_post_detail", "获取帖子详情成功"),
   ("share_post", "分享帖子成功"), ("rsp_like_post", "点赞帖子成功")]

/-- The final state of a fully successful run of the three stages from a
fresh client. -/
def stAllOk : St := ⟨okResults, [], fullTrace, 14⟩

/-- The state after a successful check-in stage on a fresh client. -/
def stAfterCheckin : St :=
  ⟨[("checkin", "签到奖励签到成功")], [], [.findRoleList, .signV2], 0⟩

/-- The final state of the three stages when only the check-in envelope is
falsy (message `"木有"`) and everything else succeeds. -/
def stCheckinFail : St :=
  ⟨[("sign_in", "社区签到成功"), ("get_forum_list", "获取帖子列表成功"),
    ("get_post_detail", "获取帖子详情成功"), ("share_post", "分享帖子成功"),
    ("rsp_like_post", "点赞帖子成功")], ["签到奖励签到失败, 木有"], fullTrace, 14⟩

/-- The final state of the three stages when only the community sign-in
envelope is falsy (message `"木有"`) and everything else succeeds. -/
def stSigninFail : St :=
  ⟨[("checkin", "签到奖励签到成功"), ("get_forum_list", "获取帖子列表成功"),
    ("get_post_detail", "获取帖子详情成功"), ("share_post", "分享帖子成功"),
    ("rsp_like_post", "点赞帖子成功")], ["社区签到失败, 木有"], fullTrace, 14⟩

/-- The final state of `forum_task` on a fresh client when the forum-listing
envelope is falsy (message `"坏"`): one failure entry, no success message, and
no detail/share/like call ever attempted. -/
def stForumListFail : St :=
  ⟨[], ["获取帖子列表失败, 坏"], [.findRoleList, .forumList], 0⟩

/-- The final state of `forum_task` on a fresh client when every post-detail
envelope is falsy (message `"坏"`): the detail loop exhausts its 5 attempts,
records one failure entry, and no share/like call is ever attempted. -/
def stDetailFail : St :=
  ⟨[("get_forum_list", "获取帖子列表成功")], ["获取帖子详情失败, 坏"],
   [.findRoleList, .forumList, .postDetail, .postDetail, .postDetail, .postDetail,
    .postDetail], 5⟩

/-- The final state of `forum_task` on a fresh client when the share-task
envelope is falsy (message `"坏"`): one failure entry and no like call. -/
def stShareFail : St :=
  ⟨[("get_forum_list", "获取帖子列表成功"), ("get_post_detail", "获取帖子详情成功")],
   ["分享帖子失败, 坏"],
   [.findRoleList, .forumList, .postDetail, .postDetail, .postDetail, .shareTask], 4⟩

/-- The final state of `forum_task` on a fresh client when the like envelope
is always falsy (message `"坏"`): nine like attempts, one failure entry, and
the like sub-step's success message omitted. -/
def stLikeFail : St :=
  ⟨[("get_forum_list", "获取帖子列表成功"), ("get_post_detail", "获取帖子详情成功"),
    ("share_post", "分享帖子成功")], ["点赞帖子失败, 坏"],
   [.findRoleList, .forumList, .postDetail, .postDetail, .postDetail, .shareTask,
    .like, .like, .like, .like, .like, .like, .like, .like, .like], 13⟩

/-- The final state of `forum_task` on a fresh client when the unlike call
never succeeds (message `"不行"`): one like call, nine unlike attempts, zero
full cycles, one failure entry whose reason is the successful like call's
message. -/
def stUnlikeNeverOk : St :=
  ⟨[("get_forum_list", "获取帖子列表成功"), ("get_post_detail", "获取帖子详情成功"),
    ("share_post", "分享帖子成功")], ["点赞帖子失败, 点赞OK"],
   [.findRoleList, .forumList, .postDetail, .postDetail, .postDetail, .shareTask,
    .like, .unlike, .unlike, .unlike, .unlike, .unlike, .unlike, .unlike, .unlike,
    .unlike], 22⟩

/-! ### Helper lemmas about the effect monad -/

@[simp] theorem bind_def {α β : Type} (x : Step α) (f : α → Step β) : x >>= f = bindS x f := rfl

@[simp] theorem pure_def {α : Type} (a : α) : (pure a : Step α) = pureS a := rfl

theorem bindS_ok_iff {α β : Type} {x : Step α} {f : α → Step β} {s : St} {v : β × St} :
    bindS x f s = .ok v ↔ ∃ a s₁, x s = .ok (a, s₁) ∧ f a s₁ = .ok v := by
  constructor
  · intro h
    cases hx : x s with
    | ok p =>
      obtain ⟨a, s₁⟩ := p
      exact ⟨a, s₁, rfl, by simpa [bindS, hx] using h⟩
    | error e => simp [bindS, hx] at h
  · rintro ⟨a, s₁, h1, h2⟩
    simp [bindS, h1, h2]

theorem msgOf_ne_empty (st : St) : msgOf st ≠ "" := by
  unfold msgOf
  intro h
  have hlen := congrArg String.length h
  rw [String.length_append] at hlen
  have h1 : ("!" : String).length = 1 := rfl
  have h0 : ("" : String).length = 0 := rfl
  omega

/-! ### Tameness: no stage raises the aggregate exception, and the failure
list only grows by appending -/

theorem tame_pureS {α : Type} (a : α) : Tame (pureS a) := by
  intro s
  refine ⟨fun e h => by simp [pureS] at h, fun a' s' h => ⟨[], ?_⟩⟩
  simp [pureS] at h
  simp [h.2.symm]

theorem tame_throwS {α : Type} (e : Err) (he : ∀ m, e ≠ Err.kurobbs m) :
    Tame (throwS e : Step α) := by
  intro s
  refine ⟨fun m h => ?_, fun a s' h => by simp [throwS] at h⟩
  simp [throwS] at h
  exact he m h

theorem tame_getS : Tame getS := by
  intro s
  refine ⟨fun e h => by simp [getS] at h, fun a s' h => ⟨[], ?_⟩⟩
  simp [getS] at h
  simp [h.2.symm]

theorem tame_modS (f : St → St) (hf : ∀ s, ∃ t, (f s).exceptions = s.exceptions ++ t) :
    Tame (modS f) := by
  intro s
  refine ⟨fun e h => by simp [modS] at h, fun a s' h => ?_⟩
  simp [modS] at h
  rw [← h]
  exact hf s

theorem tame_sleep : Tame sleep :=
  tame_modS _ fun s => ⟨[], by simp⟩

theorem tame_addRes (k v : String) : Tame (modS (addRes k v)) :=
  tame_modS _ fun s => ⟨[], by simp [addRes]⟩

theorem tame_addExc (e : String) : Tame (modS (addExc e)) :=
  tame_modS _ fun s => ⟨[e], by simp [addExc]⟩

theorem tame_bindS {α β : Type} {x : Step α} {f : α → Step β}
    (hx : Tame x) (hf : ∀ a, Tame (f a)) : Tame (bindS x f) := by
  intro s
  constructor
  · intro e h
    cases hxs : x s with
    | ok p =>
      obtain ⟨a, s₁⟩ := p
      simp [bindS, hxs] at h
      exact ((hf a) s₁).1 e h
    | error e' =>
      simp [bindS, hxs] at h
      exact (hx s).1 e (by rw [hxs, h])
  · intro b s' h
    rw [bindS_ok_iff] at h
    obtain ⟨a, s₁, h1, h2⟩ := h
    obtain ⟨t1, ht1⟩ := (hx s).2 a s₁ h1
    obtain ⟨t2, ht2⟩ := ((hf a) s₁).2 b s' h2
    exact ⟨t1 ++ t2, by rw [ht2, ht1, List.append_assoc]⟩

theorem tame_bind {α β : Type} {x : Step α} {f : α → Step β}
    (hx : Tame x) (hf : ∀ a, Tame (f a)) : Tame (x >>= f) := by
  rw [bind_def]
  exact tame_bindS hx hf

theorem tame_ite {α : Type} (c : Prop) [Decidable c] {x y : Step α}
    (hx : Tame x) (hy : Tame y) : Tame (if c then x else y) := by
  by_cases h : c <;> simp [h] <;> assumption

theorem tame_make_request (gw : Gw) (c : ApiCall) : Tame (make_request gw c) := by
  unfold make_request
  refine tame_bind tame_getS fun st => ?_
  refine tame_bind (tame_modS _ fun s => ⟨[], by simp⟩) fun _ => ?_
  cases gw st.trace c with
  | ok r => exact tame_pureS r
  | error m => exact tame_throwS _ (fun m' h => by simp at h)

theorem tame_get_user_game_list (gw : Gw) : Tame (get_user_game_list gw) := by
  unfold get_user_game_list
  exact tame_bind (tame_make_request gw _) fun res => tame_pureS _

theorem tame_firstGameId (d : Option RData) : Tame (firstGameId d) := by
  unfold firstGameId
  split
  · exact tame_pureS _
  · exact tame_throwS _ (fun m h => by simp at h)

theorem tame_get_forum_list (gw : Gw) : Tame (get_forum_list gw) := by
  unfold get_forum_list
  refine tame_bind (tame_get_user_game_list gw) fun ugl => ?_
  refine tame_bind (tame_firstGameId ugl) fun gameId => ?_
  exact tame_make_request gw _

theorem tame_get_post_detail (gw : Gw) (r : Resp) (i : Nat) :
    Tame (get_post_detail gw r i) := by
  unfold get_post_detail
  split
  · exact tame_ite _ (tame_make_request gw _) (tame_throwS _ (fun m h => by simp at h))
  · exact tame_throwS _ (fun m h => by simp at h)

theorem tame_like_post (gw : Gw) (r : Resp) (op : Nat) : Tame (like_post gw r op) := by
  unfold like_post
  split
  · exact tame_make_request gw _
  · exact tame_throwS _ (fun m h => by simp at h)

theorem tame_share_post (gw : Gw) (r : Resp) : Tame (share_post gw r) := by
  unfold share_post
  split
  · exact tame_make_request gw _
  · exact tame_throwS _ (fun m h => by simp at h)

theorem tame_lastRespS (o : Option Resp) : Tame (lastRespS o) := by
  unfold lastRespS
  split
  · exact tame_throwS _ (fun m h => by simp at h)
  · exact tame_pureS _

theorem tame_retryLoopAux (K : Nat) (action : Nat → Step Resp)
    (ha : ∀ i, Tame (action i)) :
    ∀ (rem i succ : Nat) (last : Option Resp), Tame (retryLoopAux K action i rem succ last) := by
  intro rem
  induction rem with
  | zero => intro i succ last; unfold retryLoopAux; exact tame_pureS _
  | succ r ih =>
    intro i succ last
    unfold retryLoopAux
    refine tame_bind (ha i) fun rsp => ?_
    dsimp only
    refine tame_bind tame_sleep fun _ => ?_
    refine tame_ite _ (tame_pureS _) ?_
    exact tame_bind (ih (i + 1) _ _) fun res => tame_pureS _

theorem tame_retryLoop (K N : Nat) (action : Nat → Step Resp)
    (ha : ∀ i, Tame (action i)) : Tame (retryLoop K N action) :=
  tame_retryLoopAux K action ha N 0 0 none

theorem tame_likeLoopAux (gw : Gw) (d : Resp) :
    ∀ (rem : Nat) (likePost : Bool) (lastLike : Resp) (succ : Nat),
      Tame (likeLoopAux gw d likePost lastLike succ rem) := by
  intro rem
  induction rem with
  | zero => intro likePost lastLike succ; unfold likeLoopAux; exact tame_pureS _
  | succ r ih =>
    intro likePost lastLike succ
    unfold likeLoopAux
    dsimp only
    refine tame_ite _ ?_ ?_
    · refine tame_bind (tame_like_post gw d 1) fun rspLike => ?_
      refine tame_ite _ ?_ ?_
      · refine tame_bind tame_sleep fun _ => ?_
        refine tame_bind (tame_like_post gw d 2) fun rspDislike => ?_
        refine tame_ite _ ?_ ?_ <;>
        · refine tame_bind (tame_pureS _) fun next => ?_
          refine tame_bind tame_sleep fun _ => ?_
          refine tame_ite _ (tame_pureS _) ?_
          exact tame_bind (ih _ _ _) fun res => tame_pureS _
      · refine tame_bind (tame_pureS _) fun next => ?_
        refine tame_bind tame_sleep fun _ => ?_
        refine tame_ite _ (tame_pureS _) ?_
        exact tame_bind (ih _ _ _) fun res => tame_pureS _
    · refine tame_bind (tame_pureS _) fun rspLike => ?_
      refine tame_ite _ ?_ ?_
      · refine tame_bind tame_sleep fun _ => ?_
        refine tame_bind (tame_like_post gw d 2) fun rspDislike => ?_
        refine tame_ite _ ?_ ?_ <;>
        · refine tame_bind (tame_pureS _) fun next => ?_
          refine tame_bind tame_sleep fun _ => ?_
          refine tame_ite _ (tame_pureS _) ?_
          exact tame_bind (ih _ _ _) fun res => tame_pureS _
      · refine tame_bind (tame_pureS _) fun next => ?_
        refine tame_bind tame_sleep fun _ => ?_
        refine tame_ite _ (tame_pureS _) ?_
        exact tame_bind (ih _ _ _) fun res => tame_pureS _

theorem tame_likeLoop (gw : Gw) (d : Resp) : Tame (likeLoop gw d) :=
  tame_likeLoopAux gw d 9 true dummyResp 0

theorem tame_forum_task (gw : Gw) : Tame (forum_task gw) := by
  unfold forum_task
  refine tame_bind (tame_get_forum_list gw) fun rspForumList => ?_
  refine tame_ite _ (tame_addExc _) ?_
  refine tame_bind (tame_addRes _ _) fun _ => ?_
  refine tame_bind (tame_retryLoop 3 5 _ fun i => tame_get_post_detail gw _ i) fun r1 => ?_
  refine tame_bind (tame_lastRespS _) fun rspGetPostDetail => ?_
  refine tame_ite _ (tame_addExc _) ?_
  refine tame_bind (tame_addRes _ _) fun _ => ?_
  refine tame_bind (tame_retryLoop 1 1 _ fun _ => tame_share_post gw _) fun r2 => ?_
  refine tame_bind (tame_lastRespS _) fun rspSharePost => ?_
  refine tame_ite _ (tame_addExc _) ?_
  refine tame_bind (tame_addRes _ _) fun _ => ?_
  refine tame_bind (tame_likeLoop gw _) fun lr => ?_
  exact tame_ite _ (tame_addExc _) (tame_addRes _ _)

theorem tame_checkin (gw : Gw) : Tame (checkin gw) := by
  unfold checkin
  refine tame_bind (tame_get_user_game_list gw) fun ugl => ?_
  exact tame_bind (tame_firstGameId ugl) fun _ => tame_make_request gw _

theorem tame_sign_in (gw : Gw) : Tame (sign_in gw) := tame_make_request gw _

theorem tame_processSignAction (name : String) (act : Step Resp) (sm fm : String)
    (ha : Tame act) : Tame (processSignAction name act sm fm) := by
  unfold processSignAction
  refine tame_bind ha fun resp => ?_
  exact tame_ite _ (tame_addRes _ _) (tame_addExc _)

theorem tame_stages (gw : Gw) : Tame (stages gw) := by
  unfold stages
  refine tame_bind (tame_processSignAction _ _ _ _ (tame_checkin gw)) fun _ => ?_
  refine tame_bind (tame_processSignAction _ _ _ _ (tame_sign_in gw)) fun _ => ?_
  exact tame_forum_task gw

/-! ### Characterization of the bounded-retry loop over a pure action -/

theorem winCount_zero (f : Nat → Bool) (i : Nat) : winCount f i 0 = 0 := by
  simp [winCount]

theorem winCount_succ (f : Nat → Bool) (i t : Nat) :
    winCount f i (t + 1) = winCount f (i + 1) t + (if f i then 1 else 0) := by
  unfold winCount
  rw [List.range_succ_eq_map, List.countP_cons, List.countP_map]
  have h1 : ((fun j => f (i + j)) ∘ Nat.succ) = fun j => f (i + 1 + j) := by
    funext j
    simp only [Function.comp]
    exact congrArg f (by omega)
  rw [h1]
  simp

theorem retryLoopAux_pureAct_spec (K : Nat) (f : Nat → Bool) (msgs : Nat → String) :
    ∀ (rem i succ : Nat) (last : Option Resp) (s : St), succ < K →
    ∃ (res : RetryResult) (s' : St),
      retryLoopAux K (pureAct f msgs) i rem succ last s = .ok (res, s') ∧
      res.attempts ≤ rem ∧
      res.successes = succ + winCount f i res.attempts ∧
      s' = { s with sleeps := s.sleeps + res.attempts } ∧
      (res.reached = true → res.successes = K ∧
        res.last = some ⟨0, msgs (i + res.attempts - 1), some (f (i + res.attempts - 1)), none⟩) ∧
      (res.reached = false → res.attempts = rem ∧ res.successes < K ∧
        (1 ≤ rem → res.last = some ⟨0, msgs (i + rem - 1), some (f (i + rem - 1)), none⟩) ∧
        (rem = 0 → res.last = last)) ∧
      (∀ t, t < res.attempts → succ + winCount f i t < K) := by
  intro rem
  induction rem with
  | zero =>
    intro i succ last s hsucc
    refine ⟨⟨last, false, succ, 0⟩, s, ?_, Nat.le_refl 0, ?_, ?_, ?_, ?_, ?_⟩
    · rfl
    · simp [winCount_zero]
    · cases s; simp
    · intro h; simp at h
    · intro _; exact ⟨rfl, hsucc, fun h => by omega, fun _ => rfl⟩
    · intro t ht; simp at ht
  | succ r ih =>
    intro i succ last s hsucc
    by_cases hK : K ≤ (if f i then succ + 1 else succ)
    · -- the threshold is reached on this very attempt
      refine ⟨⟨some ⟨0, msgs i, some (f i), none⟩, true, if f i then succ + 1 else succ, 1⟩,
              { s with sleeps := s.sleeps + 1 }, ?_, ?_, ?_, ?_, ?_, ?_, ?_⟩
      · unfold retryLoopAux
        simp [bindS, pureAct, pureS, sleep, modS, rspOk, hK]
      · show 1 ≤ r + 1
        omega
      · show (if f i then succ + 1 else succ) = succ + winCount f i 1
        rw [winCount_succ, winCount_zero]
        cases hf : f i <;> simp [hf]
      · rfl
      · intro _
        constructor
        · show (if f i then succ + 1 else succ) = K
          cases hf : f i <;> rw [hf] at hK <;> simp at hK ⊢ <;> omega
        · simp
      · intro h; simp at h
      · intro t ht
        have ht1 : t < 1 := ht
        have ht0 : t = 0 := by omega
        rw [ht0, winCount_zero]
        omega
    · -- the attempt is counted and the loop continues
      have hsc : (if f i then succ + 1 else succ) < K := by omega
      obtain ⟨res', s'', heq, hle, hsucceq, hsleep, hreach, hexh, hfirst⟩ :=
        ih (i + 1) (if f i then succ + 1 else succ)
          (some ⟨0, msgs i, some (f i), none⟩) { s with sleeps := s.sleeps + 1 } hsc
      refine ⟨{ res' with attempts := res'.attempts + 1 }, s'', ?_, ?_, ?_, ?_, ?_, ?_, ?_⟩
      · unfold retryLoopAux
        simp [bindS, pureAct, pureS, sleep, modS, rspOk, hK, heq]
      · show res'.attempts + 1 ≤ r + 1
        omega
      · show res'.successes = succ + winCount f i (res'.attempts + 1)
        rw [winCount_succ]
        cases hf : f i <;> rw [hf] at hsucceq <;> simp at hsucceq ⊢ <;> omega
      · rw [hsleep]
        have harith : s.sleeps + 1 + res'.attempts = s.sleeps + (res'.attempts + 1) := by omega
        simp [harith]
      · intro h
        obtain ⟨hs5, hl5⟩ := hreach h
        refine ⟨hs5, ?_⟩
        have hidx : i + 1 + res'.attempts - 1 = i + (res'.attempts + 1) - 1 := by omega
        simpa [hidx] using hl5
      · intro h
        obtain ⟨ha, hlt, hlast1, hlast0⟩ := hexh h
        refine ⟨?_, hlt, ?_, ?_⟩
        · show res'.attempts + 1 = r + 1
          omega
        · intro _
          rcases Nat.eq_zero_or_pos r with hr | hr
          · have := hlast0 hr
            rw [this]
            have hidx : i + (r + 1) - 1 = i := by omega
            rw [hidx]
          · have := hlast1 hr
            rw [this]
            have hidx : i + 1 + r - 1 = i + (r + 1) - 1 := by omega
            rw [hidx]
        · intro hcon
          exact absurd hcon (by omega)
      · intro t ht
        have ht2 : t < res'.attempts + 1 := ht
        cases t with
        | zero => rw [winCount_zero]; omega
        | succ t' =>
          have ht' : t' < res'.attempts := by omega
          have hf2 := hfirst t' ht'
          rw [winCount_succ]
          cases hf : f i <;> rw [hf] at hf2 <;> simp at hf2 ⊢ <;> omega

/-! ### Exit condition of the like/unlike loop -/

theorem likeLoopAux_exit (gw : Gw) (d : Resp) :
    ∀ (rem : Nat) (likePost : Bool) (lastLike : Resp) (succ : Nat) (s : St)
      (res : LikeResult) (s' : St), succ < 5 →
      likeLoopAux gw d likePost lastLike succ rem s = .ok (res, s') →
      (res.reached = true → res.successes = 5 ∧ res.attempts ≤ rem) ∧
      (res.reached = false → res.attempts = rem ∧ res.successes < 5) := by
  intro rem
  induction rem with
  | zero =>
    intro likePost lastLike succ s res s' hsucc h
    simp [likeLoopAux, pureS] at h
    obtain ⟨h1, h2⟩ := h
    rw [← h1]
    exact ⟨fun ht => by simp at ht, fun _ => ⟨rfl, hsucc⟩⟩
  | succ r ih =>
    intro likePost lastLike succ s res s' hsucc h
    have tail : ∀ (rspLike : Resp) (b : Bool) (sc : Nat) (s0 : St), sc ≤ succ + 1 →
        (bindS sleep (fun _ =>
          if 5 ≤ sc then pureS (⟨rspLike, sc, true, 1⟩ : LikeResult)
          else bindS (likeLoopAux gw d b rspLike sc r) fun res0 =>
            pureS ⟨res0.lastLike, res0.successes, res0.reached, res0.attempts + 1⟩)) s0
          = .ok (res, s') →
        (res.reached = true → res.successes = 5 ∧ res.attempts ≤ r + 1) ∧
        (res.reached = false → res.attempts = r + 1 ∧ res.successes < 5) := by
      intro rspLike b sc s0 hsc hh
      rw [bindS_ok_iff] at hh
      obtain ⟨_, s1, _, hh⟩ := hh
      by_cases h5 : 5 ≤ sc
      · rw [if_pos h5] at hh
        simp [pureS] at hh
        obtain ⟨hres, _⟩ := hh
        rw [← hres]
        constructor
        · intro _
          exact ⟨by show sc = 5; omega, by show 1 ≤ r + 1; omega⟩
        · intro hfalse
          simp at hfalse
      · rw [if_neg h5] at hh
        rw [bindS_ok_iff] at hh
        obtain ⟨res0, s2, hrec, hp⟩ := hh
        simp [pureS] at hp
        obtain ⟨hres, _⟩ := hp
        have hsc5 : sc < 5 := by omega
        have IH := ih b rspLike sc s1 res0 s2 hsc5 hrec
        rw [← hres]
        constructor
        · intro ht
          have := IH.1 ht
          exact ⟨this.1, by show res0.attempts + 1 ≤ r + 1; omega⟩
        · intro ht
          have := IH.2 ht
          exact ⟨by show res0.attempts + 1 = r + 1; omega, this.2⟩
    unfold likeLoopAux at h
    dsimp only at h
    split at h
    · -- the iteration starts with a like call
      rw [bind_def, bindS_ok_iff] at h
      obtain ⟨rspLike, s1, _, h⟩ := h
      split at h
      · -- the like envelope is truthy: sleep, then try the unlike call
        rw [bind_def, bindS_ok_iff] at h
        obtain ⟨_, s2, _, h⟩ := h
        rw [bind_def, bindS_ok_iff] at h
        obtain ⟨rspDislike, s3, _, h⟩ := h
        split at h
        · rw [bind_def, bindS_ok_iff] at h
          obtain ⟨nxt, s4, hp, h⟩ := h
          simp [pureS] at hp
          obtain ⟨hn, hs4⟩ := hp
          rw [← hn] at h
          rw [← hs4] at h
          exact tail rspLike true (succ + 1) s3 (by omega) h
        · rw [bind_def, bindS_ok_iff] at h
          obtain ⟨nxt, s4, hp, h⟩ := h
          simp [pureS] at hp
          obtain ⟨hn, hs4⟩ := hp
          rw [← hn] at h
          rw [← hs4] at h
          exact tail rspLike false succ s3 (by omega) h
      · -- the like envelope is falsy: no unlike call this iteration
        rw [bind_def, bindS_ok_iff] at h
        obtain ⟨nxt, s4, hp, h⟩ := h
        simp [pureS] at hp
        obtain ⟨hn, hs4⟩ := hp
        rw [← hn] at h
        rw [← hs4] at h
        exact tail rspLike likePost succ s1 (by omega) h
    · -- the stale like response is re-tested without a new like call
      rw [bind_def, bindS_ok_iff] at h
      obtain ⟨rspLike, s1, hpl, h⟩ := h
      simp [pureS] at hpl
      obtain ⟨hrl, hs1⟩ := hpl
      split at h
      · rw [bind_def, bindS_ok_iff] at h
        obtain ⟨_, s2, _, h⟩ := h
        rw [bind_def, bindS_ok_iff] at h
        obtain ⟨rspDislike, s3, _, h⟩ := h
        split at h
        · rw [bind_def, bindS_ok_iff] at h
          obtain ⟨nxt, s4, hp, h⟩ := h
          simp [pureS] at hp
          obtain ⟨hn, hs4⟩ := hp
          rw [← hn] at h
          rw [← hs4] at h
          exact tail rspLike true (succ + 1) s3 (by omega) h
        · rw [bind_def, bindS_ok_iff] at h
          obtain ⟨nxt, s4, hp, h⟩ := h
          simp [pureS] at hp
          obtain ⟨hn, hs4⟩ := hp
          rw [← hn] at h
          rw [← hs4] at h
          exact tail rspLike false succ s3 (by omega) h
      · rw [bind_def, bindS_ok_iff] at h
        obtain ⟨nxt, s4, hp, h⟩ := h
        simp [pureS] at hp
        obtain ⟨hn, hs4⟩ := hp
        rw [← hn] at h
        rw [← hs4] at h
        exact tail rspLike likePost succ s1 (by omega) h

theorem likeLoop_exit (gw : Gw) (d : Resp) (s : St) (res : LikeResult) (s' : St)
    (h : likeLoop gw d s = .ok (res, s')) :
    (res.reached = true → res.successes = 5 ∧ res.attempts ≤ 9) ∧
    (res.reached = false → res.attempts = 9 ∧ res.successes < 5) :=
  likeLoopAux_exit gw d 9 true dummyResp 0 s res s' (by omega) h

/-! ### Stability of repeated runs against the all-success gateway -/

theorem start_allOk_stable (tr : List ApiCall) (sl : Nat) :
    ∃ (tr' : List ApiCall) (sl' : Nat),
      start gwAllOk ⟨okResults, [], tr, sl⟩ = .ok ((), ⟨okResults, [], tr', sl'⟩) :=
  ⟨_, _, rfl⟩

theorem iterStart_allOk (n : Nat) : ∀ (tr : List ApiCall) (sl : Nat),
    ∃ (tr' : List ApiCall) (sl' : Nat),
      iterStart gwAllOk n ⟨okResults, [], tr, sl⟩ = .ok ((), ⟨okResults, [], tr', sl'⟩) := by
  induction n with
  | zero => intro tr sl; exact ⟨tr, sl, rfl⟩
  | succ k ih =>
    intro tr sl
    obtain ⟨tr1, sl1, h1⟩ := start_allOk_stable tr sl
    obtain ⟨tr', sl', h2⟩ := ih tr1 sl1
    refine ⟨tr', sl', ?_⟩
    show bindS (start gwAllOk) (fun _ => iterStart gwAllOk k) ⟨okResults, [], tr, sl⟩ = _
    simp [bindS, h1, h2]

/-! ### The claims -/

/-- C1: the three top-level stages of `start` run strictly in order —
whatever state the check-in stage leaves behind (success message or recorded
failure), the sign-in stage and then the forum task run from exactly that
state — and in the concrete scenario where check-in fails decisively while
everything else succeeds, the summary carries the sign-in and all four forum
success texts while the raised aggregate failure mentions only the check-in
failure (symmetrically for a sign-in-only failure). -/
theorem c1_stage_independence :
    (∀ (gw : Gw) (s s₁ : St), checkinStage gw s = .ok ((), s₁) →
      stages gw s = (do signinStage gw; forum_task gw : Step Unit) s₁) ∧
    (∀ (gw : Gw) (s s₁ : St), signinStage gw s = .ok ((), s₁) →
      (do signinStage gw; forum_task gw : Step Unit) s = forum_task gw s₁) ∧
    stages (gwFailOn .signV2 "木有") initSt = .ok ((), stCheckinFail) ∧
    msgOf stCheckinFail = "社区签到成功, 获取帖子列表成功, 获取帖子详情成功, 分享帖子成功, 点赞帖子成功!" ∧
    start (gwFailOn .signV2 "木有") initSt = .error (.kurobbs "签到奖励签到失败, 木有") ∧
    stages (gwFailOn .userSign "木有") initSt = .ok ((), stSigninFail) ∧
    msgOf stSigninFail = "签到奖励签到成功, 获取帖子列表成功, 获取帖子详情成功, 分享帖子成功, 点赞帖子成功!" ∧
    start (gwFailOn .userSign "木有") initSt = .error (.kurobbs "社区签到失败, 木有") := by
  refine ⟨?_, ?_, rfl, rfl, rfl, rfl, rfl, rfl⟩
  · intro gw s s₁ h
    simp [stages, bindS, h]
  · intro gw s s₁ h
    simp [bindS, h]

theorem c1_stage_independence_witness :
    checkinStage gwAllOk initSt = .ok ((), stAfterCheckin) ∧
    stages gwAllOk initSt = (do signinStage gwAllOk; forum_task gwAllOk : Step Unit) stAfterCheckin :=
  ⟨rfl, c1_stage_independence.1 gwAllOk initSt stAfterCheckin rfl⟩

/-- C2 counterexample: a run whose very first remote call fails at the
transport level sends zero notifications (and exits 1), so "exactly one
outbound notification per run" fails as stated. -/
theorem c2_zero_notifications_counterexample :
    pymain (gwDown "Connection refused") = ⟨[], 1⟩ ∧
    ((pymain (gwDown "Connection refused")).notifications.length == 1) = false :=
  ⟨rfl, rfl⟩

/-- C2 (amended): every run of `main` sends at most one notification — the
success summary on a normal return (the summary guard is always truthy), the
aggregate failure text when the workflow raises it — and a run aborted by an
unmodeled error (transport failure or malformed response data) sends no
notification at all and exits 1. -/
theorem c2_notification_amended (gw : Gw) :
    (∃ st : St, start gw initSt = .ok ((), st) ∧ pymain gw = ⟨[msgOf st], 0⟩) ∨
    (∃ e : String, start gw initSt = .error (.kurobbs e) ∧ pymain gw = ⟨[e], 1⟩) ∨
    ((start gw initSt = .error .pyError ∨
        ∃ m : String, start gw initSt = .error (.transport m)) ∧
      pymain gw = ⟨[], 1⟩) := by
  cases h : start gw initSt with
  | ok p =>
    obtain ⟨u, st⟩ := p
    cases u
    exact Or.inl ⟨st, rfl, by simp [pymain, h, msgOf_ne_empty st]⟩
  | error e =>
    cases e with
    | kurobbs m => exact Or.inr (Or.inl ⟨m, rfl, by simp [pymain, h]⟩)
    | transport m => exact Or.inr (Or.inr ⟨Or.inr ⟨m, rfl⟩, by simp [pymain, h]⟩)
    | pyError => exact Or.inr (Or.inr ⟨Or.inl rfl, by simp [pymain, h]⟩)

/-- C3: the three stages themselves never raise the aggregate exception (it
is raised at most once, by `_log`, at the very end), the failure list only
ever grows by appending across the stages, and `start` raises the aggregate
failure — whose text is the `"; "`-concatenation of every recorded stage
failure — exactly when the accumulated failure list is non-empty. -/
theorem c3_aggregate_failure (gw : Gw) :
    (∀ (s : St) (e : String), stages gw s ≠ .error (.kurobbs e)) ∧
    (∀ (s s' : St), stages gw s = .ok ((), s') →
      (∃ t, s'.exceptions = s.exceptions ++ t) ∧
      start gw s = (if s'.exceptions = [] then .ok ((), s')
        else .error (.kurobbs (String.intercalate "; " s'.exceptions)))) := by
  constructor
  · intro s e
    exact (tame_stages gw s).1 e
  · intro s s' h
    refine ⟨(tame_stages gw s).2 () s' h, ?_⟩
    have hs : start gw s = logAndRaise s' := by simp [start, bindS, h]
    rw [hs]
    by_cases hemp : s'.exceptions = []
    · rw [if_pos hemp]
      simp [logAndRaise, bindS, getS, pureS, hemp]
    · rw [if_neg hemp]
      simp [logAndRaise, bindS, getS, throwS, hemp]

theorem c3_aggregate_failure_witness :
    (∃ t, stCheckinFail.exceptions = initSt.exceptions ++ t) ∧
    start (gwFailOn .signV2 "木有") initSt =
      (if stCheckinFail.exceptions = [] then Except.ok ((), stCheckinFail)
       else .error (.kurobbs (String.intercalate "; " stCheckinFail.exceptions))) :=
  (c3_aggregate_failure (gwFailOn .signV2 "木有")).2 initSt stCheckinFail rfl

/-- C4 counterexample: with every endpoint unreachable, the transport error
of the very first stage's call escapes the three-stage orchestration
unabsorbed — the stage does not convert it into a boolean-plus-message
outcome. -/
theorem c4_transport_escapes_counterexample :
    stages (gwDown "Connection refused") initSt =
      .error (.transport "Connection refused") ∧
    (stages (gwDown "Connection refused") initSt).isOk = false :=
  ⟨rfl, rfl⟩

/-- C4 (amended): a transport-level failure is not silently swallowed, but
it is also not absorbed by the owning stage: it propagates out of the stage
and aborts the whole run as an unmodeled error — subsequent stages do not
run, no failure entry is recorded, no notification is sent, and the process
exits 1. This holds both when the first call fails and when a mid-run call
(the community sign-in) fails. -/
theorem c4_transport_raises_amended (m : String) :
    stages (gwDown m) initSt = .error (.transport m) ∧
    start (gwDown m) initSt = .error (.transport m) ∧
    pymain (gwDown m) = ⟨[], 1⟩ ∧
    start (gwDownOnUserSign m) initSt = .error (.transport m) ∧
    pymain (gwDownOnUserSign m) = ⟨[], 1⟩ :=
  ⟨rfl, rfl, rfl, rfl, rfl⟩

/-- C5: within the forum task the sub-steps are sequentially dependent: a
decisive listing failure records exactly one failure entry and attempts no
detail/share/like call; detail-loop exhaustion records one entry and attempts
no share/like call; a share failure records one entry and attempts no like
call; a decisive failure of the final like/unlike sub-step only omits that
sub-step's success message (the share and detail messages stay recorded). -/
theorem c5_forum_subtask_dependency :
    forum_task (gwFailOn .forumList "坏") initSt = .ok ((), stForumListFail) ∧
    stForumListFail.exceptions.length = 1 ∧
    stForumListFail.result = [] ∧
    stForumListFail.trace.count .postDetail = 0 ∧
    stForumListFail.trace.count .shareTask = 0 ∧
    stForumListFail.trace.count .like = 0 ∧
    stForumListFail.trace.count .unlike = 0 ∧
    forum_task (gwFailOn .postDetail "坏") initSt = .ok ((), stDetailFail) ∧
    stDetailFail.exceptions.length = 1 ∧
    stDetailFail.result.map Prod.fst = ["get_forum_list"] ∧
    stDetailFail.trace.count .shareTask = 0 ∧
    stDetailFail.trace.count .like = 0 ∧
    stDetailFail.trace.count .unlike = 0 ∧
    forum_task (gwFailOn .shareTask "坏") initSt = .ok ((), stShareFail) ∧
    stShareFail.exceptions.length = 1 ∧
    stShareFail.result.map Prod.fst = ["get_forum_list", "get_post_detail"] ∧
    stShareFail.trace.count .like = 0 ∧
    stShareFail.trace.count .unlike = 0 ∧
    forum_task (gwFailOn .like "坏") initSt = .ok ((), stLikeFail) ∧
    stLikeFail.exceptions = ["点赞帖子失败, 坏"] ∧
    stLikeFail.result.map Prod.fst = ["get_forum_list", "get_post_detail", "share_post"] := by
  refine ⟨rfl, rfl, rfl, rfl, rfl, rfl, rfl, rfl, rfl, rfl, rfl, rfl, rfl, rfl, rfl,
    rfl, rfl, rfl, rfl, rfl, rfl⟩

/-- C6 counterexample: with `K = N = 1` and an always-successful action, the
success threshold is reached on the only attempt, yet the loop still sleeps
after it — one sleep, not `attempts - 1 = 0` as the claim's sleep schedule
asserts. -/
theorem c6_sleep_counterexample :
    retryLoop 1 1 alwaysOkAct initSt =
      .ok (⟨some ⟨0, "行", some true, none⟩, true, 1, 1⟩, ⟨[], [], [], 1⟩) ∧
    sleepsExceptLastClaim (retryLoop 1 1 alwaysOkAct initSt) = false :=
  ⟨rfl, rfl⟩

/-- C6 (amended): for every bounded-retry loop with `K ≥ 1`, `N ≥ 1` over a
deterministic pure action, the loop makes at most `N` attempts, counts a
success exactly on the attempts whose envelope is truthy, stops at the first
point where the success count reaches `K` (reaching it exactly), sleeps a
jitter duration after every attempt — including the one on which the
threshold is reached — and on exhausting `N` attempts with fewer than `K`
successes ends holding the last envelope (whose message is the failure
reason recorded by the caller). -/
theorem c6_retry_policy_amended (K N : Nat) (f : Nat → Bool) (msgs : Nat → String)
    (s : St) (hK : 1 ≤ K) (hN : 1 ≤ N) :
    ∃ (res : RetryResult) (s' : St),
      retryLoop K N (pureAct f msgs) s = .ok (res, s') ∧
      res.attempts ≤ N ∧
      res.successes = winCount f 0 res.attempts ∧
      s' = { s with sleeps := s.sleeps + res.attempts } ∧
      (res.reached = true ↔ K ≤ winCount f 0 res.attempts) ∧
      (res.reached = true → res.successes = K ∧
        (∀ t, t < res.attempts → winCount f 0 t < K)) ∧
      (res.reached = false → res.attempts = N ∧ res.successes < K ∧
        res.last = some ⟨0, msgs (N - 1), some (f (N - 1)), none⟩) := by
  obtain ⟨res, s', heq, hle, hsucceq, hsleep, hreach, hexh, hfirst⟩ :=
    retryLoopAux_pureAct_spec K f msgs N 0 0 none s (by omega)
  rw [Nat.zero_add] at hsucceq
  refine ⟨res, s', heq, hle, hsucceq, hsleep, ?_, ?_, ?_⟩
  · constructor
    · intro ht
      rw [← hsucceq, (hreach ht).1]
    · intro hK2
      by_contra hne
      have hfalse : res.reached = false := by
        cases hr : res.reached
        · rfl
        · exact absurd hr hne
      obtain ⟨_, hlt, _, _⟩ := hexh hfalse
      rw [hsucceq] at hlt
      omega
  · intro ht
    refine ⟨(hreach ht).1, ?_⟩
    intro t htt
    have := hfirst t htt
    omega
  · intro hf0
    obtain ⟨ha, hlt, hlast1, _⟩ := hexh hf0
    refine ⟨ha, hlt, ?_⟩
    have := hlast1 hN
    simpa using this

theorem c6_retry_policy_amended_witness :
    ∃ (res : RetryResult) (s' : St),
      retryLoop 1 2 (pureAct (fun _ => false) (fun _ => "唉")) initSt = .ok (res, s') ∧
      res.attempts ≤ 2 ∧
      res.successes = winCount (fun _ => false) 0 res.attempts ∧
      s' = { initSt with sleeps := initSt.sleeps + res.attempts } ∧
      (res.reached = true ↔ 1 ≤ winCount (fun _ => false) 0 res.attempts) ∧
      (res.reached = true → res.successes = 1 ∧
        (∀ t, t < res.attempts → winCount (fun _ => false) 0 t < 1)) ∧
      (res.reached = false → res.attempts = 2 ∧ res.successes < 1 ∧
        res.last = some ⟨0, "唉", some false, none⟩) :=
  c6_retry_policy_amended 1 2 (fun _ => false) (fun _ => "唉") initSt
    (by decide) (by decide)

/-- C7 counterexample: with likes always succeeding and the unlike call
succeeding on every other invocation starting with a success, the loop
reaches 5 successes in exactly 9 attempts with no exhaustion — neither "5
successes in exactly 10 attempts" nor "exhaustion reported at 9" as the
claim asserts. -/
theorem c7_ten_attempts_counterexample :
    likeLoop gwAltUnlikeFirstOk detailResp initSt =
      .ok (⟨⟨0, "点赞OK", some true, none⟩, 5, true, 9⟩,
           ⟨[], [], [.like, .unlike, .like, .unlike, .unlike, .like, .unlike, .unlike,
                     .like, .unlike, .unlike, .like, .unlike, .unlike], 18⟩) ∧
    c7ClaimShape (likeLoop gwAltUnlikeFirstOk detailResp initSt) = false :=
  ⟨rfl, rfl⟩

/-- C7 (amended): the like/unlike loop exits exactly when either the success
count reaches 5 or the attempt count reaches 9 (for every gateway). Under
like-always-succeeds with the unlike call succeeding on every other
invocation: if the first unlike succeeds the loop reaches 5 successes in
exactly 9 attempts; if the first unlike fails it exhausts 9 attempts with 4
successes. When the unlike call never succeeds it stops at 9 attempts with 0
successes, and `forum_task` records exactly one decisive failure for the
like sub-step while omitting its success message. -/
theorem c7_like_loop_amended :
    (∀ (gw : Gw) (d : Resp) (s : St) (res : LikeResult) (s' : St),
      likeLoop gw d s = .ok (res, s') →
      (res.reached = true → res.successes = 5 ∧ res.attempts ≤ 9) ∧
      (res.reached = false → res.attempts = 9 ∧ res.successes < 5)) ∧
    likeLoop gwAltUnlikeFirstOk detailResp initSt =
      .ok (⟨⟨0, "点赞OK", some true, none⟩, 5, true, 9⟩,
           ⟨[], [], [.like, .unlike, .like, .unlike, .unlike, .like, .unlike, .unlike,
                     .like, .unlike, .unlike, .like, .unlike, .unlike], 18⟩) ∧
    likeLoop gwAltUnlikeFirstFails detailResp initSt =
      .ok (⟨⟨0, "点赞OK", some true, none⟩, 4, false, 9⟩,
           ⟨[], [], [.like, .unlike, .unlike, .like, .unlike, .unlike, .like, .unlike,
                     .unlike, .like, .unlike, .unlike, .like, .unlike], 18⟩) ∧
    likeLoop (gwFailOn .unlike "不行") detailResp initSt =
      .ok (⟨⟨0, "点赞OK", some true, none⟩, 0, false, 9⟩,
           ⟨[], [], [.like, .unlike, .unlike, .unlike, .unlike, .unlike, .unlike,
                     .unlike, .unlike, .unlike], 18⟩) ∧
    forum_task (gwFailOn .unlike "不行") initSt = .ok ((), stUnlikeNeverOk) ∧
    stUnlikeNeverOk.exceptions = ["点赞帖子失败, 点赞OK"] ∧
    (stUnlikeNeverOk.result.map Prod.fst).count "rsp_like_post" = 0 :=
  ⟨fun gw d s res s' h => likeLoop_exit gw d s res s' h, rfl, rfl, rfl, rfl, rfl, rfl⟩

theorem c7_like_loop_amended_witness :
    ((⟨⟨0, "点赞OK", some true, none⟩, 5, true, 5⟩ : LikeResult).reached = true →
      (⟨⟨0, "点赞OK", some true, none⟩, 5, true, 5⟩ : LikeResult).successes = 5 ∧
      (⟨⟨0, "点赞OK", some true, none⟩, 5, true, 5⟩ : LikeResult).attempts ≤ 9) ∧
    ((⟨⟨0, "点赞OK", some true, none⟩, 5, true, 5⟩ : LikeResult).reached = false →
      (⟨⟨0, "点赞OK", some true, none⟩, 5, true, 5⟩ : LikeResult).attempts = 9 ∧
      (⟨⟨0, "点赞OK", some true, none⟩, 5, true, 5⟩ : LikeResult).successes < 5) :=
  c7_like_loop_amended.1 gwAllOk detailResp initSt
    ⟨⟨0, "点赞OK", some true, none⟩, 5, true, 5⟩
    ⟨[], [], [.like, .unlike, .like, .unlike, .like, .unlike, .like, .unlike,
              .like, .unlike], 10⟩ rfl

/-- C8 counterexample: against the all-success gateway the summary mapping
holds six entries — checkin, sign-in, forum-list, post-detail, share, like —
not the four the claim asserts. -/
theorem c8_four_entries_counterexample :
    stages gwAllOk initSt = .ok ((), stAllOk) ∧
    stAllOk.result.length = 6 ∧
    (stAllOk.result.length == 4) = false :=
  ⟨rfl, rfl, rfl⟩

/-- C8 (amended): on an all-success run the summary is the success messages
joined in execution order with `", "` and a trailing `"!"`, with six entries
in the fixed order checkin, sign-in, forum-list, post-detail, share, like;
re-running `start` any number of times on the same client (and gateway)
leaves the result mapping, the empty failure list, and hence the summary
unchanged. -/
theorem c8_summary_amended :
    stages gwAllOk initSt = .ok ((), stAllOk) ∧
    stAllOk.result.map Prod.fst =
      ["checkin", "sign_in", "get_forum_list", "get_post_detail", "share_post",
       "rsp_like_post"] ∧
    msgOf stAllOk =
      "签到奖励签到成功, 社区签到成功, 获取帖子列表成功, 获取帖子详情成功, 分享帖子成功, 点赞帖子成功!" ∧
    stAllOk.exceptions = [] ∧
    (∀ n : Nat, ∃ s' : St, iterStart gwAllOk (n + 1) initSt = .ok ((), s') ∧
      s'.result = stAllOk.result ∧ s'.exceptions = [] ∧ msgOf s' = msgOf stAllOk) := by
  refine ⟨rfl, rfl, rfl, rfl, ?_⟩
  intro n
  obtain ⟨tr', sl', h⟩ := iterStart_allOk n fullTrace 14
  refine ⟨⟨okResults, [], tr', sl'⟩, ?_, rfl, rfl, rfl⟩
  show bindS (start gwAllOk) (fun _ => iterStart gwAllOk n) initSt = _
  have h0 : start gwAllOk initSt = .ok ((), (⟨okResults, [], fullTrace, 14⟩ : St)) := rfl
  simp [bindS, h0, h]

/-- C9 counterexample: when the forum listing succeeds but carries zero
posts, `forum_task` does not record a precondition failure — the subscript
into the empty post list raises an unmodeled index error that aborts the
task. -/
theorem c9_empty_listing_counterexample :
    forum_task gwEmptyPosts initSt = .error Err.pyError ∧
    (forum_task gwEmptyPosts initSt).isOk = false :=
  ⟨rfl, rfl⟩

/-- C9 (amended): a successful-but-empty forum listing is unhandled: the
post-detail sub-step's subscript raises an unmodeled index error that
escapes the stage and the orchestrator, so the run aborts with no stage
failure recorded, no notification sent, and exit code 1. -/
theorem c9_empty_listing_amended :
    start gwEmptyPosts initSt = .error Err.pyError ∧
    pymain gwEmptyPosts = ⟨[], 1⟩ :=
  ⟨rfl, rfl⟩

/-- C10: the `msg` property always appends `"!"` to the joined success
messages, so it is a non-empty (truthy) string even for the empty mapping;
hence whenever `start` returns without raising, the success-notification
guard in `main` passes and exactly the summary is sent with exit code 0. -/
theorem c10_msg_always_truthy :
    (∀ st : St, msgOf st ≠ "") ∧
    (∀ (gw : Gw) (st' : St), start gw initSt = .ok ((), st') →
      pymain gw = ⟨[msgOf st'], 0⟩) := by
  refine ⟨msgOf_ne_empty, ?_⟩
  intro gw st' h
  simp [pymain, h, msgOf_ne_empty st']

theorem c10_msg_always_truthy_witness :
    pymain gwAllOk = ⟨[msgOf stAllOk], 0⟩ :=
  c10_msg_always_truthy.2 gwAllOk stAllOk rfl

end KurobbsModel
